import Mathlib

/-!
Verification of the payment-event ingestion and subscription ledger.

The development shallowly embeds `database.py` (class `DatabaseManager`,
an SQLite-backed payment ledger) and `webhook.py` (a Flask endpoint that
verifies an HMAC-SHA512 signature over the raw request body and inspects
the parsed JSON event).

Modelling conventions:
* The `payments` table is a `Ledger`: rows in insertion order together with
  the next AUTOINCREMENT id.  SQLite assigns ids in increasing order, so a
  well-formed ledger has strictly increasing ids along the row list.
* Timestamps (`created_at`, `expires_at`, the current time `datetime('now')`)
  are `Int` time points; SQLite compares its timestamp strings
  lexicographically, which on well-formed timestamps is order-isomorphic to
  integer comparison.  The SQLite modifier `'-30 days'` is thirty days in
  seconds.
* Monetary amounts are carried opaquely (never computed with); they are
  modelled as `Int`.
* Each `DatabaseManager` method wraps its body in
  `try ... except sqlite3.Error`.  The constructor argument
  `StorageOutcome` says whether a (non-constraint) `sqlite3.Error` is raised
  by execute/commit during the call (`err`) or the body completes (`ok`).
  The UNIQUE constraint on `reference` (`sqlite3.IntegrityError`) is
  deterministic given the ledger and is modelled directly.  (A failure of
  `sqlite3.connect` itself instead escapes the `finally: conn.close()` block
  as `UnboundLocalError`; no claim depends on that path.)
-/

/-- One row of the `payments` table (`database.py`, `create_payment_table`). -/
structure PaymentRecord where
  id : Nat
  email : String
  reference : String
  amount : Int
  status : String
  createdAt : Int
  expiresAt : Int
  planType : String
  deriving Repr, DecidableEq

/-- The `payments` table: rows in insertion order plus the next
AUTOINCREMENT id. -/
structure Ledger where
  rows : List PaymentRecord
  nextId : Nat
  deriving Repr, DecidableEq

/-- Whether a transient `sqlite3.Error` is raised by execute/commit during a
`DatabaseManager` call (the `except sqlite3.Error` branch) or the call's try
body completes. -/
inductive StorageOutcome where
  | ok
  | err
  deriving Repr, DecidableEq

/-- The SQLite modifier `'-30 days'` measured in seconds. -/
def thirtyDays : Int := 2592000

/-- A ledger is well formed when its row ids are strictly increasing along
the list (SQLite AUTOINCREMENT assigns increasing ids in insertion order). -/
abbrev Ledger.WF (db : Ledger) : Prop :=
  db.rows.Pairwise (fun a b => a.id < b.id)

/-- `DatabaseManager.store_payment`: INSERT a new row.  The UNIQUE
constraint on `reference` raises `sqlite3.IntegrityError` when the reference
is already present, and the method returns `False` leaving the table
unchanged; any other `sqlite3.Error` also yields `False` with no commit.
`created_at` is filled by the column default `CURRENT_TIMESTAMP` (`now`). -/
def storePayment (db : Ledger) (email reference : String) (amount : Int)
    (status planType : String) (expiresAt now : Int) (e : StorageOutcome) :
    Bool × Ledger :=
  match e with
  | .err => (false, db)
  | .ok =>
      if db.rows.any (fun r => r.reference == reference) then
        (false, db)
      else
        (true,
          { rows := db.rows ++
              [{ id := db.nextId, email := email, reference := reference,
                 amount := amount, status := status, createdAt := now,
                 expiresAt := expiresAt, planType := planType }],
            nextId := db.nextId + 1 })

/-- `DatabaseManager.update_payment_status`: UPDATE the status of every row
whose reference matches (the UNIQUE constraint means at most one).  The
method returns `True` whenever the UPDATE commits, even when zero rows
match; a `sqlite3.Error` yields `False` with no commit. -/
def updatePaymentStatus (db : Ledger) (reference status : String)
    (e : StorageOutcome) : Bool × Ledger :=
  match e with
  | .err => (false, db)
  | .ok =>
      (true,
        { db with rows := db.rows.map (fun r =>
            if r.reference == reference then { r with status := status }
            else r) })

/-- The projection `SELECT status, expires_at, plan_type` returned by
`get_payment_status` as a dictionary. -/
structure PaymentStatusView where
  status : String
  expiresAt : Int
  planType : String
  deriving Repr, DecidableEq

/-- `ORDER BY created_at DESC LIMIT 1` over a scan of the filtered rows:
SQLite's temp-B-tree sort is stable with respect to scan (rowid) order, so
the first-scanned row among those with maximal `created_at` is returned. -/
def selectLatest : List PaymentRecord → Option PaymentRecord
  | [] => none
  | r :: rest =>
      match selectLatest rest with
      | none => some r
      | some b => if b.createdAt > r.createdAt then some b else some r

/-- `DatabaseManager.get_payment_status`: the latest row for the email, or
`None` when the email has no rows; a `sqlite3.Error` also yields `None`. -/
def getPaymentStatus (db : Ledger) (email : String) (e : StorageOutcome) :
    Option PaymentStatusView :=
  match e with
  | .err => none
  | .ok =>
      match selectLatest (db.rows.filter (fun r => r.email == email)) with
      | none => none
      | some r => some { status := r.status, expiresAt := r.expiresAt,
                         planType := r.planType }

/-- `DatabaseManager.check_active_subscription`:
`COUNT(*) WHERE email = ? AND status = 'success' AND expires_at >
datetime('now')`, then `count > 0`; a `sqlite3.Error` yields `False`. -/
def checkActiveSubscription (db : Ledger) (email : String) (now : Int)
    (e : StorageOutcome) : Bool :=
  match e with
  | .err => false
  | .ok =>
      0 < db.rows.countP (fun r =>
        r.email == email && r.status == "success" && decide (now < r.expiresAt))

/-- `DatabaseManager.cleanup_expired_payments`:
`DELETE WHERE expires_at < datetime('now', '-30 days')`; a `sqlite3.Error`
leaves the table unchanged. -/
def cleanupExpiredPayments (db : Ledger) (now : Int) (e : StorageOutcome) :
    Ledger :=
  match e with
  | .err => db
  | .ok =>
      { db with rows := db.rows.filter (fun r =>
          !decide (r.expiresAt < now - thirtyDays)) }

/-!
## The webhook endpoint (`webhook.py`)

The Flask handler reads the `x-paystack-signature` header (absent headers
give `None`), computes `hmac.new(PAYSTACK_SECRET_KEY.encode('utf-8'),
request.data, hashlib.sha512).hexdigest()` over the raw body bytes, rejects
mismatches with `400 {"status": "invalid signature"}`, then parses the body
as JSON and, for a `charge.success` event, reads
`event['data']['reference']` — and performs no further action (the handler
contains no database call).  The SHA-512 compression itself and Flask's
JSON parser are opaque library primitives; the model takes them as
function parameters and embeds everything the handler does with them.
-/

/-- A parsed JSON value as Python's JSON parser delivers it (numbers are
carried opaquely as integers; no claim computes with them). -/
inductive JValue where
  | null
  | bool (b : Bool)
  | num (n : Int)
  | str (s : String)
  | arr (elts : List JValue)
  | obj (fields : List (String × JValue))

/-- Dictionary lookup on a parsed JSON object (Python `dict` keys are
unique, so first match is the match). -/
def dictGet : List (String × JValue) → String → Option JValue
  | [], _ => none
  | (k, v) :: rest, key => if k == key then some v else dictGet rest key

/-- `event.get('event') == 'charge.success'` in Python: a missing key gives
`None` and any non-string value compares unequal to the string. -/
def isChargeSuccess : Option JValue → Bool
  | some (.str s) => s == "charge.success"
  | _ => false

/-- Lowercase hex digit, as produced by Python's `hexdigest()`. -/
def hexChar (n : Nat) : Char :=
  if n < 10 then Char.ofNat (48 + n) else Char.ofNat (87 + n)

/-- One byte as two lowercase hex characters. -/
def byteToHex (b : Nat) : String :=
  String.mk [hexChar (b / 16 % 16), hexChar (b % 16)]

/-- `hexdigest()`: the digest bytes rendered as lowercase hex. -/
def hexdigest (bs : List Nat) : String :=
  String.join (bs.map byteToHex)

/-- `hmac.new(key, msg, hashlib.sha512)` (RFC 2104 with the SHA-512 block
size of 128 bytes), parameterised by the underlying sha512 digest
function on byte lists. -/
def hmacSha512 (sha512 : List Nat → List Nat) (key msg : List Nat) :
    List Nat :=
  let k0 := if 128 < key.length then sha512 key else key
  let kpad := k0 ++ List.replicate (128 - k0.length) 0
  let ipadKey := kpad.map (fun b => b ^^^ 0x36)
  let opadKey := kpad.map (fun b => b ^^^ 0x5c)
  sha512 (opadKey ++ sha512 (ipadKey ++ msg))

/-- An inbound `POST /webhook` request: the optional
`x-paystack-signature` header and the raw body bytes (`request.data`). -/
structure Request where
  signature : Option String
  rawBody : List Nat

/-- What the Flask handler produces: an explicit response, or an unhandled
Python exception that Flask turns into a 500 Internal Server Error. -/
inductive HttpOutcome where
  | response (code : Nat) (body : String)
  | crash (exn : String)
  deriving Repr, DecidableEq

/-- The observable effect of one webhook delivery: the HTTP outcome, the
reference extracted inside the `charge.success` branch (`none` when that
branch was never reached), and the ledger afterwards. -/
structure WebhookResult where
  outcome : HttpOutcome
  processedReference : Option JValue
  db : Ledger

/-- The `/webhook` handler of `webhook.py`, line by line.  `secretKey` is
`os.getenv('PAYSTACK_SECRET_KEY')` as raw bytes (`None` when the variable
is unset, in which case `.encode('utf-8')` raises `AttributeError`);
`parseJson` is Flask's `request.json` (a parse failure is rejected by the
framework before the handler continues); `db` is the payments table, which
the handler never touches. -/
def webhook (sha512 : List Nat → List Nat)
    (parseJson : List Nat → Option JValue)
    (secretKey : Option (List Nat)) (req : Request) (db : Ledger) :
    WebhookResult :=
  match secretKey with
  | none => { outcome := .crash "AttributeError", processedReference := none,
              db := db }
  | some key =>
      let computed := hexdigest (hmacSha512 sha512 key req.rawBody)
      if req.signature == some computed then
        match parseJson req.rawBody with
        | none => { outcome := .response 400 "bad request",
                    processedReference := none, db := db }
        | some (.obj fields) =>
            if isChargeSuccess (dictGet fields "event") then
              match dictGet fields "data" with
              | some (.obj dataFields) =>
                  match dictGet dataFields "reference" with
                  | some v => { outcome := .response 200 "success",
                                processedReference := some v, db := db }
                  | none => { outcome := .crash "KeyError",
                              processedReference := none, db := db }
              | some _ => { outcome := .crash "TypeError",
                            processedReference := none, db := db }
              | none => { outcome := .crash "KeyError",
                          processedReference := none, db := db }
            else
              { outcome := .response 200 "success",
                processedReference := none, db := db }
        | some _ => { outcome := .crash "AttributeError",
                      processedReference := none, db := db }
      else
        { outcome := .response 400 "invalid signature",
          processedReference := none, db := db }

/-!
## Concrete fixtures shared by several results
-/

/-- A successful, unexpired payment row (id 1, reference `R`). -/
def sampleSuccessRow : PaymentRecord :=
  { id := 1, email := "a@x.com", reference := "R", amount := 10,
    status := "success", createdAt := 100, expiresAt := 400,
    planType := "monthly" }

/-- A one-row ledger holding `sampleSuccessRow`. -/
def sampleLedger : Ledger := { rows := [sampleSuccessRow], nextId := 2 }

/-- The empty ledger. -/
def emptyLedger : Ledger := { rows := [], nextId := 1 }

/-- Every payment field except the mutable `status`. -/
def eraseStatus (r : PaymentRecord) :
    Nat × String × String × Int × Int × Int × String :=
  (r.id, r.email, r.reference, r.amount, r.createdAt, r.expiresAt, r.planType)

/-- C1: `checkActiveSubscription(email)` is true exactly when some record
for that email has status `success` and `expires_at` strictly later than
the current time — an existence check over all records, not just the most
recent one, and false when no such record exists. -/
theorem check_active_subscription_iff_exists (db : Ledger) (email : String)
    (now : Int) :
    checkActiveSubscription db email now .ok = true ↔
      ∃ r ∈ db.rows, r.email = email ∧ r.status = "success" ∧
        now < r.expiresAt := by
  simp [checkActiveSubscription, List.countP_pos_iff, and_assoc]

/-- C9: `cleanupExpiredPayments` deletes exactly the records whose
`expires_at` is older than the current time minus the 30-day retention
window; surviving records are kept verbatim and in order (a sublist of the
original rows), and nothing else about the ledger changes. -/
theorem cleanup_expired_payments_exact (db : Ledger) (now : Int) :
    (∀ r, r ∈ (cleanupExpiredPayments db now .ok).rows ↔
        (r ∈ db.rows ∧ ¬ r.expiresAt < now - thirtyDays)) ∧
    (cleanupExpiredPayments db now .ok).rows.Sublist db.rows ∧
    (cleanupExpiredPayments db now .ok).nextId = db.nextId := by
  refine ⟨fun r => ?_, ?_, rfl⟩
  · simp [cleanupExpiredPayments, List.mem_filter]
  · simp only [cleanupExpiredPayments]
    exact List.filter_sublist db.rows

/-- C3: at most one record ever exists per reference — `storePayment`
preserves reference-distinctness, fails on a duplicate reference leaving
the whole ledger exactly as it was, and `updatePaymentStatus` never
creates a reference (it preserves every field of every row but `status`). -/
theorem store_payment_reference_unique (db : Ledger)
    (email reference : String) (amount : Int) (status planType : String)
    (expiresAt now : Int) (e : StorageOutcome) :
    ((db.rows.map PaymentRecord.reference).Nodup →
      (((storePayment db email reference amount status planType expiresAt
          now e).2).rows.map PaymentRecord.reference).Nodup) ∧
    ((∃ r ∈ db.rows, r.reference = reference) →
      storePayment db email reference amount status planType expiresAt
        now e = (false, db)) ∧
    (∀ st e2, ((updatePaymentStatus db reference st e2).2.rows.map
        eraseStatus) = db.rows.map eraseStatus) := by
  refine ⟨?_, ?_, ?_⟩
  · intro hnd
    match e with
    | .err => exact hnd
    | .ok =>
        by_cases hdup : db.rows.any (fun r => r.reference == reference)
        · simpa [storePayment, hdup] using hnd
        · have hnot : reference ∉ db.rows.map PaymentRecord.reference := by
            intro hmem
            rcases List.mem_map.mp hmem with ⟨r, hr, hrr⟩
            exact hdup (List.any_eq_true.mpr ⟨r, hr, by simp [hrr]⟩)
          simp only [storePayment, hdup, if_false, Bool.false_eq_true,
            List.map_append]
          exact List.Nodup.append hnd (List.nodup_singleton _)
            (by simpa [List.disjoint_singleton] using hnot)
  · rintro ⟨r, hr, hrr⟩
    match e with
    | .err => rfl
    | .ok =>
        have hdup : db.rows.any (fun r => r.reference == reference) = true :=
          List.any_eq_true.mpr ⟨r, hr, by simp [hrr]⟩
        simp [storePayment, hdup]
  · intro st e2
    match e2 with
    | .err => rfl
    | .ok =>
        simp only [updatePaymentStatus, List.map_map]
        congr 1
        funext r
        simp only [Function.comp]
        split <;> rfl

/-- C3 witness: on the concrete one-row ledger, storing a second payment
with the already-used reference `R` fails and leaves the ledger unchanged,
and the stored references stay distinct. -/
theorem store_payment_reference_unique_witness :
    ((storePayment sampleLedger "b@x.com" "R" 5 "pending" "monthly" 9 4
        .ok).2.rows.map PaymentRecord.reference).Nodup ∧
    storePayment sampleLedger "b@x.com" "R" 5 "pending" "monthly" 9 4 .ok =
      (false, sampleLedger) :=
  ⟨(store_payment_reference_unique sampleLedger "b@x.com" "R" 5 "pending"
      "monthly" 9 4 .ok).1 (by decide),
   (store_payment_reference_unique sampleLedger "b@x.com" "R" 5 "pending"
      "monthly" 9 4 .ok).2.1 (by decide)⟩

/-!
## The latest-record query
-/

/-- The scan-order maximum selection returns `none` exactly on the empty
scan. -/
theorem selectLatest_eq_none (l : List PaymentRecord) :
    selectLatest l = none ↔ l = [] := by
  cases l with
  | nil => simp [selectLatest]
  | cons a rest =>
      simp only [selectLatest]
      constructor
      · intro h
        exfalso
        cases hsel : selectLatest rest with
        | none =>
            rw [hsel] at h
            simp at h
        | some b =>
            rw [hsel] at h
            by_cases hgt : b.createdAt > a.createdAt <;> simp [hgt] at h
      · intro h
        exact absurd h (List.cons_ne_nil a rest)

/-- The row returned by `ORDER BY created_at DESC LIMIT 1` is a row of the
scan with maximal `created_at`, and among equal `created_at` values it is
the one with the least id (the B-tree sort is stable in scan order, and a
well-formed scan lists ids in increasing order). -/
theorem selectLatest_spec :
    (l : List PaymentRecord) → l.Pairwise (fun a b => a.id < b.id) →
    (r : PaymentRecord) → selectLatest l = some r →
    r ∈ l ∧ (∀ x ∈ l, x.createdAt ≤ r.createdAt) ∧
      (∀ x ∈ l, x.createdAt = r.createdAt → r.id ≤ x.id)
  | [], _, r, h => by simp [selectLatest] at h
  | a :: rest, hl, r, h => by
      rw [List.pairwise_cons] at hl
      obtain ⟨ha, hrest⟩ := hl
      cases hsel : selectLatest rest with
      | none =>
          have hre : rest = [] := (selectLatest_eq_none rest).mp hsel
          subst hre
          simp only [selectLatest, Option.some.injEq] at h
          subst h
          refine ⟨by simp, ?_, ?_⟩
          · intro x hx
            simp only [List.mem_singleton] at hx
            subst hx
            exact le_refl _
          · intro x hx _
            simp only [List.mem_singleton] at hx
            subst hx
            exact le_refl _
      | some b =>
          obtain ⟨hbmem, hbmax, hbties⟩ := selectLatest_spec rest hrest b hsel
          by_cases hgt : b.createdAt > a.createdAt
          · have hr : r = b := by
              simp [selectLatest, hsel, hgt] at h
              exact h.symm
            subst hr
            refine ⟨List.mem_cons_of_mem _ hbmem, ?_, ?_⟩
            · intro x hx
              rcases List.mem_cons.mp hx with rfl | hx'
              · exact le_of_lt hgt
              · exact hbmax x hx'
            · intro x hx heq
              rcases List.mem_cons.mp hx with rfl | hx'
              · exact absurd heq (ne_of_lt hgt)
              · exact hbties x hx' heq
          · have hr : r = a := by
              simp [selectLatest, hsel, hgt] at h
              exact h.symm
            subst hr
            have hle := le_of_not_lt hgt
            refine ⟨List.mem_cons_self _ _, ?_, ?_⟩
            · intro x hx
              rcases List.mem_cons.mp hx with rfl | hx'
              · exact le_refl _
              · exact le_trans (hbmax x hx') hle
            · intro x hx _
              rcases List.mem_cons.mp hx with rfl | hx'
              · exact le_refl _
              · exact le_of_lt (ha x hx')

/-- Two rows for the same email with identical `created_at`: the earlier
insert (id 1, status `failed`) and the later insert (id 2, status
`success`). -/
def tieEarlierRow : PaymentRecord :=
  { id := 1, email := "a@x.com", reference := "T1", amount := 10,
    status := "failed", createdAt := 100, expiresAt := 200,
    planType := "monthly" }

/-- The later insert in the `created_at` tie (id 2). -/
def tieLaterRow : PaymentRecord :=
  { id := 2, email := "a@x.com", reference := "T2", amount := 10,
    status := "success", createdAt := 100, expiresAt := 200,
    planType := "monthly" }

/-- The two-row tied ledger. -/
def tieLedger : Ledger := { rows := [tieEarlierRow, tieLaterRow], nextId := 3 }

/-- C8 counterexample: on two records for the same email with identical
`created_at`, `getPaymentStatus` returns the record with the LOWER id
(the earlier insert, status `failed`), not the higher-id later insert as
the claim states. -/
theorem get_payment_status_tie_cex :
    getPaymentStatus tieLedger "a@x.com" .ok =
      some { status := "failed", expiresAt := 200, planType := "monthly" } ∧
    getPaymentStatus tieLedger "a@x.com" .ok ≠
      some { status := "success", expiresAt := 200, planType := "monthly" } := by
  decide

/-- C8 (amended): `getPaymentStatus(email)` returns the status, expires_at
and plan_type of the single most-recently-created record for the email and
`none` when the email has no records; when two records tie on `created_at`,
the record with the LOWER assigned id (the earlier insert) is the one
returned. -/
theorem get_payment_status_latest (db : Ledger) (email : String)
    (hdb : db.WF) :
    (getPaymentStatus db email .ok = none ↔
      ∀ r ∈ db.rows, r.email ≠ email) ∧
    (∀ v, getPaymentStatus db email .ok = some v →
      ∃ r ∈ db.rows, r.email = email ∧
        v = { status := r.status, expiresAt := r.expiresAt,
              planType := r.planType } ∧
        (∀ x ∈ db.rows, x.email = email → x.createdAt ≤ r.createdAt) ∧
        (∀ x ∈ db.rows, x.email = email → x.createdAt = r.createdAt →
          r.id ≤ x.id)) := by
  have hlp : (db.rows.filter (fun r => r.email == email)).Pairwise
      (fun a b => a.id < b.id) :=
    List.Pairwise.sublist (List.filter_sublist _) hdb
  cases hsel : selectLatest (db.rows.filter (fun r => r.email == email)) with
  | none =>
      have hre := (selectLatest_eq_none _).mp hsel
      have hnone : getPaymentStatus db email .ok = none := by
        simp [getPaymentStatus, hsel]
      refine ⟨?_, ?_⟩
      · rw [hnone]
        simp only [true_iff]
        intro r hr hre2
        have : r ∈ db.rows.filter (fun r => r.email == email) :=
          List.mem_filter.mpr ⟨hr, by simp [hre2]⟩
        rw [hre] at this
        exact absurd this (List.not_mem_nil r)
      · intro v hv
        rw [hnone] at hv
        exact absurd hv (by simp)
  | some b =>
      obtain ⟨hbmem, hbmax, hbties⟩ := selectLatest_spec _ hlp b hsel
      have hbrow : b ∈ db.rows := (List.mem_filter.mp hbmem).1
      have hbemail : b.email = email := by
        have := (List.mem_filter.mp hbmem).2
        simpa using this
      have hsome : getPaymentStatus db email .ok =
          some { status := b.status, expiresAt := b.expiresAt,
                 planType := b.planType } := by
        simp [getPaymentStatus, hsel]
      refine ⟨?_, ?_⟩
      · rw [hsome]
        constructor
        · intro h
          exact absurd h (by simp)
        · intro hall
          exact absurd hbemail (hall b hbrow)
      · intro v hv
        rw [hsome] at hv
        refine ⟨b, hbrow, hbemail, ?_, ?_, ?_⟩
        · injection hv with hv
          exact hv.symm
        · intro x hx hxe
          exact hbmax x (List.mem_filter.mpr ⟨hx, by simp [hxe]⟩)
        · intro x hx hxe hxc
          exact hbties x (List.mem_filter.mpr ⟨hx, by simp [hxe]⟩) hxc

/-- C8 witness: the amended latest-record theorem applied to the concrete
tied ledger, whose ids are strictly increasing. -/
theorem get_payment_status_latest_witness :
    tieLedger.WF ∧
    (getPaymentStatus tieLedger "a@x.com" .ok = none ↔
      ∀ r ∈ tieLedger.rows, r.email ≠ "a@x.com") :=
  ⟨by decide, (get_payment_status_latest tieLedger "a@x.com" (by decide)).1⟩

/-!
## Status regression, failure reporting and read-path failures
-/

/-- C4 counterexample: on a ledger whose only record (reference `R`) is in
terminal `success`, pushing a late `pending` status through the
status-update path overwrites it — the record ends in `pending`, not
`success`. -/
theorem update_pending_over_success_cex :
    (updatePaymentStatus sampleLedger "R" "pending" .ok).2.rows.map
      PaymentRecord.status = ["pending"] ∧
    (updatePaymentStatus sampleLedger "R" "pending" .ok).2.rows.map
      PaymentRecord.status ≠ ["success"] := by
  decide

/-- C4 (amended): `update_payment_status` has no regression guard — a
late-arriving `pending` for reference R is applied over a record in
terminal `success`, leaving that record's status `pending` (the webhook
route itself performs no status update at all, so only this direct path
mutates the ledger). -/
theorem update_pending_over_success_applied (db : Ledger) (ref : String)
    (r : PaymentRecord) (hr : r ∈ db.rows) (href : r.reference = ref)
    (_hst : r.status = "success") :
    ∃ r2 ∈ (updatePaymentStatus db ref "pending" .ok).2.rows,
      r2.id = r.id ∧ r2.status = "pending" := by
  refine ⟨{ r with status := "pending" }, ?_, rfl, rfl⟩
  simp only [updatePaymentStatus]
  have hmem := List.mem_map_of_mem
    (fun x : PaymentRecord =>
      if x.reference == ref then { x with status := "pending" } else x) hr
  simpa [href] using hmem

/-- C4 witness: the amended regression theorem applied to the concrete
success record. -/
theorem update_pending_over_success_applied_witness :
    sampleSuccessRow ∈ sampleLedger.rows ∧
    sampleSuccessRow.reference = "R" ∧ sampleSuccessRow.status = "success" ∧
    ∃ r2 ∈ (updatePaymentStatus sampleLedger "R" "pending" .ok).2.rows,
      r2.id = sampleSuccessRow.id ∧ r2.status = "pending" :=
  ⟨by decide, rfl, rfl,
    update_pending_over_success_applied sampleLedger "R" sampleSuccessRow
      (by decide) rfl rfl⟩

/-- C5 counterexample: a duplicate-reference insert and a transient
storage failure of `store_payment` produce the identical observable
result, and `update_payment_status` on an absent reference reports plain
success rather than a NotFound failure. -/
theorem store_payment_failures_indistinguishable_cex :
    storePayment sampleLedger "b@x.com" "R" 5 "pending" "monthly" 9 4 .ok =
      storePayment sampleLedger "b@x.com" "R" 5 "pending" "monthly" 9 4
        .err ∧
    (updatePaymentStatus sampleLedger "ABSENT" "success" .ok).1 = true := by
  decide

/-- C5 (amended): the ledger operations report failures as bare booleans —
`store_payment` answers `false` both for a duplicate reference and for a
transient storage failure (the two are observationally identical), and
`update_payment_status` answers `true` whenever storage does not fail,
even when no record has the given reference (there is no NotFound). -/
theorem store_payment_failure_reporting (db : Ledger) (email ref : String)
    (amount : Int) (status planType : String) (expiresAt now : Int)
    (st : String) :
    ((∃ r ∈ db.rows, r.reference = ref) →
      (storePayment db email ref amount status planType expiresAt now
          .ok).1 =
        (storePayment db email ref amount status planType expiresAt now
          .err).1) ∧
    (storePayment db email ref amount status planType expiresAt now
        .err).1 = false ∧
    (updatePaymentStatus db ref st .ok).1 = true ∧
    (updatePaymentStatus db ref st .err).1 = false := by
  refine ⟨?_, rfl, rfl, rfl⟩
  rintro ⟨r, hr, hrr⟩
  have hdup : db.rows.any (fun x => x.reference == ref) = true :=
    List.any_eq_true.mpr ⟨r, hr, by simp [hrr]⟩
  simp [storePayment, hdup]

/-- C5 witness: the failure-reporting theorem applied to the concrete
ledger where reference `R` already exists. -/
theorem store_payment_failure_reporting_witness :
    (∃ r ∈ sampleLedger.rows, r.reference = "R") ∧
    (storePayment sampleLedger "b@x.com" "R" 5 "pending" "monthly" 9 4
        .ok).1 =
      (storePayment sampleLedger "b@x.com" "R" 5 "pending" "monthly" 9 4
        .err).1 :=
  ⟨by decide,
    (store_payment_failure_reporting sampleLedger "b@x.com" "R" 5 "pending"
      "monthly" 9 4 "x").1 (by decide)⟩

/-- C10 counterexample: the email holds a genuinely active subscription,
yet a transient storage failure makes `check_active_subscription` answer
`false` — the same observable as an email with no subscription at all; no
distinguishable unknown result exists. -/
theorem check_active_subscription_error_cex :
    checkActiveSubscription sampleLedger "a@x.com" 50 .ok = true ∧
    checkActiveSubscription sampleLedger "a@x.com" 50 .err = false ∧
    checkActiveSubscription sampleLedger "a@x.com" 50 .err =
      checkActiveSubscription emptyLedger "a@x.com" 50 .ok := by
  decide

/-- C10 (amended): a transient storage failure in the active-subscription
check returns `false`, observationally identical to a genuinely inactive
subscription (the query fails closed; no unknown result is ever
produced). -/
theorem check_active_subscription_error_fails_closed (db : Ledger)
    (email : String) (now : Int) :
    checkActiveSubscription db email now .err = false ∧
    checkActiveSubscription db email now .err =
      checkActiveSubscription emptyLedger email now .ok :=
  ⟨rfl, rfl⟩

/-!
## Webhook authentication and the charge.success path
-/

/-- C6: any request whose supplied signature (including a missing header,
which Python reads as `None`) differs from the HMAC-SHA512 hex digest of
the exact raw body under the configured secret is answered with
400 invalid-signature; the charge.success processor is never reached and
the ledger is untouched. -/
theorem webhook_bad_signature_rejected (sha512 : List Nat → List Nat)
    (parseJson : List Nat → Option JValue) (key : List Nat) (req : Request)
    (db : Ledger)
    (h : req.signature ≠
      some (hexdigest (hmacSha512 sha512 key req.rawBody))) :
    webhook sha512 parseJson (some key) req db =
      { outcome := .response 400 "invalid signature",
        processedReference := none, db := db } := by
  have hbeq : (req.signature ==
      some (hexdigest (hmacSha512 sha512 key req.rawBody))) = false :=
    beq_eq_false_iff_ne.mpr h
  simp [webhook, hbeq]

/-- C6 witness: the rejection theorem applied to a concrete request with
no signature header. -/
theorem webhook_bad_signature_rejected_witness :
    (none : Option String) ≠
      some (hexdigest (hmacSha512 (fun _ => []) [] ([] : List Nat))) ∧
    webhook (fun _ => []) (fun _ => none) (some []) ⟨none, []⟩ emptyLedger =
      { outcome := .response 400 "invalid signature",
        processedReference := none, db := emptyLedger } :=
  ⟨by decide,
    webhook_bad_signature_rejected (fun _ => []) (fun _ => none) []
      ⟨none, []⟩ emptyLedger (by decide)⟩

/-- C7 counterexample: with the shared secret unconfigured, a concrete
inbound request is answered by an unhandled exception (`AttributeError`
from `None.encode`, an HTTP 500), which is not the controlled
400 invalid-signature verification failure. -/
theorem webhook_no_secret_cex :
    (webhook (fun _ => []) (fun _ => none) none ⟨some "x", [1]⟩
        emptyLedger).outcome = .crash "AttributeError" ∧
    (webhook (fun _ => []) (fun _ => none) none ⟨some "x", [1]⟩
        emptyLedger).outcome ≠ .response 400 "invalid signature" := by
  decide

/-- C7 (amended): with the shared secret unconfigured, every inbound
request fails before verification with an unhandled `AttributeError`
crash; no request is ever processed with verification skipped and the
ledger is never mutated, but the rejection is an uncontrolled 500-level
crash, not a controlled verification failure. -/
theorem webhook_no_secret_crashes (sha512 : List Nat → List Nat)
    (parseJson : List Nat → Option JValue) (req : Request) (db : Ledger) :
    webhook sha512 parseJson none req db =
      { outcome := .crash "AttributeError", processedReference := none,
        db := db } := rfl

/-- Stand-in SHA-512 digest (a fixed 64-byte output); the handler only
pipes digests through `hexdigest`, so the end-to-end delivery can be
evaluated with it. -/
def sha512stub : List Nat → List Nat := fun _ => List.replicate 64 0

/-- The parsed end-to-end scenario event: `charge.success` for reference
`PAY1`. -/
def chargeSuccessEvent : JValue :=
  .obj [("event", .str "charge.success"),
        ("data", .obj [("reference", .str "PAY1"),
                       ("email", .str "a@x.com"),
                       ("amount", .num 10),
                       ("plan", .str "monthly")])]

/-- A parse stub delivering the charge.success event for the raw body. -/
def parseChargeSuccess : List Nat → Option JValue :=
  fun _ => some chargeSuccessEvent

/-- The provider's correct signature for body bytes `[101]` under secret
bytes `[115, 107]` and the stand-in digest. -/
def validSignature : String :=
  hexdigest (hmacSha512 sha512stub [115, 107] [101])

/-- C2: a correctly signed, well-formed `charge.success` delivery is
acknowledged with 200 and its reference `PAY1` is extracted, but the
handler performs no ledger mutation whatsoever: after the delivery the
ledger still holds zero — not exactly one — records with the event's
reference. -/
theorem webhook_charge_success_no_ledger_mutation :
    webhook sha512stub parseChargeSuccess (some [115, 107])
        ⟨some validSignature, [101]⟩ emptyLedger =
      { outcome := .response 200 "success",
        processedReference := some (.str "PAY1"), db := emptyLedger } ∧
    (emptyLedger.rows.filter (fun r => r.reference == "PAY1")).length = 0 ∧
    ¬ (emptyLedger.rows.filter
        (fun r => r.reference == "PAY1")).length = 1 := by
  refine ⟨rfl, rfl, by decide⟩
